import Mathlib

/-!
Shallow embedding of `main.go` from the go-collect-system-metrics-cronjob
repository: a single-shot host-metrics snapshot tool (sampler, CSV writer,
SMTP mailer with retry).

OS queries, filesystem errors, the dotenv loader and the SMTP transport are
the program's only interaction points with the outside world; they are
modelled by oracles (records of the results the libraries would return).
Everything the program itself computes — control flow, string formatting,
CSV serialization, the retry loop, the exit code — is embedded directly,
line by line from the Go source.  Side effects are recorded in an explicit
event trace.
-/

/-- Go errors are only ever turned into log text here, so they are modelled
by their `Error()` string. -/
abbrev GoErr := String

/-- A `time.Time` value, modelled by its RFC 3339 rendering: the program
never inspects a timestamp, it only formats it with `Format(time.RFC3339)`
(and `main` separately formats `time.Now()` with a layout that is passed in
as `currentTime`). -/
structure GoTime where
  rfc3339 : String
deriving DecidableEq, Repr

/-- The exact rational value of a Go `float64`, as numerator and (positive)
denominator.  The program does no floating-point arithmetic: the floats it
holds come from the OS and are only ever formatted, so carrying the exact
value is a faithful model. -/
structure GoFloat where
  num : Int
  den : Nat
deriving DecidableEq, Repr

/-- Left-pads a digit string with zeros to 6 characters (the fractional part
of `%f`). -/
def padLeft6 (s : String) : String :=
  String.mk (List.replicate (6 - s.length) '0') ++ s

/-- Go `fmt.Sprintf("%f", x)`: fixed-point with the default 6 fractional
digits, correctly rounded (ties to even) from the exact value of the float. -/
def fmtF6 (q : GoFloat) : String :=
  let sign := if q.num < 0 then "-" else ""
  let scaledNum : Nat := q.num.natAbs * 1000000
  let fl : Nat := scaledNum / q.den
  let rem : Nat := scaledNum % q.den
  let n : Nat :=
    if q.den < 2 * rem then fl + 1
    else if 2 * rem < q.den then fl
    else if fl % 2 = 0 then fl else fl + 1
  sign ++ toString (n / 1000000) ++ "." ++ padLeft6 (toString (n % 1000000))

/-- Go `strconv.Atoi`: optional sign, one or more decimal digits, value must
fit a 64-bit `int`; anything else is an error (`none`). -/
def goAtoi (s : String) : Option Int :=
  let core (digits : List Char) (neg : Bool) : Option Int :=
    if digits = [] ∨ ¬ digits.all Char.isDigit then none
    else
      let v : Nat := digits.foldl (fun acc c => acc * 10 + (c.toNat - 48)) 0
      let i : Int := if neg then -(v : Int) else (v : Int)
      if i < -(2 ^ 63) ∨ i ≥ 2 ^ 63 then none else some i
  match s.data with
  | [] => none
  | '+' :: rest => core rest false
  | '-' :: rest => core rest true
  | l => core l false

/-- Leading-rune whitespace test of `encoding/csv` (`unicode.IsSpace`,
restricted to the ASCII range, which covers every field this program can
produce). -/
def unicodeIsSpace (c : Char) : Bool :=
  c = ' ' || c = '\t' || c = '\n' || c = '\r' || c = '\x0b' || c = '\x0c'

/-- `encoding/csv`: does a field have to be quoted?  (Default `Comma = ','`;
the `\.` special case is kept from the library source.) -/
def fieldNeedsQuotes (field : String) : Bool :=
  if field = "" then false
  else if field = "\\." then true
  else if field.data.any (fun c => c = ',' || c = '"' || c = '\r' || c = '\n') then true
  else match field.data with
    | [] => false
    | c :: _ => unicodeIsSpace c

/-- Doubles every `"` inside a quoted CSV field. -/
def escapeQuotes : List Char → List Char
  | [] => []
  | '"' :: rest => '"' :: '"' :: escapeQuotes rest
  | c :: rest => c :: escapeQuotes rest

/-- One CSV field as `encoding/csv` emits it (default `UseCRLF = false`):
quoted with inner quotes doubled when needed, verbatim otherwise. -/
def quoteField (field : String) : String :=
  if fieldNeedsQuotes field then "\"" ++ String.mk (escapeQuotes field.data) ++ "\"" else field

/-- Comma-joins already-rendered CSV fields. -/
def joinComma : List String → String
  | [] => ""
  | [f] => f
  | f :: rest => f ++ "," ++ joinComma rest

/-- One `csv.Writer.Write` call: the record's fields, quoted as needed,
comma-separated, terminated by `\n`. -/
def writeRow (fields : List String) : String :=
  joinComma (fields.map quoteField) ++ "\n"

/-- The `SystemMetrics` struct of `main.go` (field `Timestamp` is a
`time.Time`, `CPUCount` an `int`, the `float64` fields carry exact values,
the `uint64` fields are byte counts that are only ever formatted). -/
structure SystemMetrics where
  Timestamp : GoTime
  CPUCount : Int
  CPUUsage : GoFloat
  MemoryUsage : GoFloat
  MemoryTotal : Nat
  MemoryFree : Nat
  MemoryUsed : Nat
  DiskUsage : GoFloat
  DiskTotal : Nat
  DiskFree : Nat
  DiskUsed : Nat
deriving DecidableEq, Repr

/-- The fields of `mem.VirtualMemoryStat` that `getSystemMetrics` reads. -/
structure VMStat where
  UsedPercent : GoFloat
  Total : Nat
  Free : Nat
  Used : Nat
deriving DecidableEq, Repr

/-- The fields of `disk.UsageStat` that `getSystemMetrics` reads. -/
structure DiskStat where
  UsedPercent : GoFloat
  Total : Nat
  Free : Nat
  Used : Nat
deriving DecidableEq, Repr

/-- Results of the four gopsutil OS queries made by `getSystemMetrics`, plus
the `time.Now()` value; these come from outside the program. -/
structure SamplerOracle where
  cpuPercent : Except GoErr (List GoFloat)
  cpuCounts : Except GoErr Int
  virtualMemory : Except GoErr VMStat
  diskUsage : Except GoErr DiskStat
  now : GoTime
deriving Repr

/-- `getSystemMetrics` of `main.go`: runs the four OS queries in source
order, returning the first error, otherwise the assembled snapshot.
(`cpuPercent[0]` is modelled by `headD`: with `percpu = false` gopsutil
returns a one-element slice.) -/
def getSystemMetrics (s : SamplerOracle) : Except GoErr SystemMetrics :=
  match s.cpuPercent with
  | .error err => .error err
  | .ok cpuPercent =>
    match s.cpuCounts with
    | .error err => .error err
    | .ok cpuCount =>
      match s.virtualMemory with
      | .error err => .error err
      | .ok memoryUsage =>
        match s.diskUsage with
        | .error err => .error err
        | .ok diskUsage =>
          .ok {
            Timestamp := s.now
            CPUCount := cpuCount
            CPUUsage := cpuPercent.headD ⟨0, 1⟩
            MemoryUsage := memoryUsage.UsedPercent
            MemoryTotal := memoryUsage.Total
            MemoryFree := memoryUsage.Free
            MemoryUsed := memoryUsage.Used
            DiskUsage := diskUsage.UsedPercent
            DiskTotal := diskUsage.Total
            DiskFree := diskUsage.Free
            DiskUsed := diskUsage.Used
          }

/-- The first failing OS query in the source order of `getSystemMetrics`,
if any. -/
def firstSamplerError (s : SamplerOracle) : Option GoErr :=
  match s.cpuPercent with
  | .error e => some e
  | .ok _ =>
    match s.cpuCounts with
    | .error e => some e
    | .ok _ =>
      match s.virtualMemory with
      | .error e => some e
      | .ok _ =>
        match s.diskUsage with
        | .error e => some e
        | .ok _ => none

/-- The filesystem, as a map from path to the committed file content. -/
abbrev FS := String → Option String

/-- The empty filesystem. -/
def emptyFS : FS := fun _ => none

/-- Sets the content of one file. -/
def FS.update (fs : FS) (p c : String) : FS :=
  fun q => if q = p then some c else fs q

/-- Observable steps of a run.  `fatal` is `log.Fatalf`, which prints and
then calls `os.Exit(1)`; `bufWrite` is a `csv.Writer.Write` into the
writer's buffer (data reaches the file only at `flushWriter`; `file.Close`
does not flush the csv writer's buffer). -/
inductive Event
  | logMsg (s : String)
  | logMetrics (m : SystemMetrics)
  | fatal (s : String)
  | mkdirAll (dir : String) (perm : Nat)
  | createFile (path : String)
  | closeFile
  | flushWriter
  | bufWrite (row : String)
  | buildMessage (fromAddr toAddr subject attachment : String)
  | newDialer (host : String) (port : Int) (user pass : String)
  | dialAndSend (attempt : Nat)
  | sleep (seconds : Nat)
deriving DecidableEq, Repr

/-- Results the filesystem and csv library return to `saveSystemMetrics`:
`os.MkdirAll`, `os.Create`, and the two `csv.Writer.Write` calls (the
header write's result is the one the code discards). -/
structure SaveOracle where
  mkdirErr : Option GoErr
  createErr : Option GoErr
  headerErr : Option GoErr
  dataErr : Option GoErr

/-- The header row written by `saveSystemMetrics`. -/
def csvHeaderFields : List String :=
  ["Timestamp", "CPUCount", "CPUUsage", "MemoryUsage", "MemoryTotal", "MemoryFree",
   "MemoryUsed", "DiskUsage", "DiskTotal", "DiskFree", "DiskUsed"]

/-- The data row of `saveSystemMetrics`: RFC 3339 timestamp, `%d` for the
integer fields, `%f` for the float fields, in source order. -/
def metricsFields (m : SystemMetrics) : List String :=
  [m.Timestamp.rfc3339,
   toString m.CPUCount,
   fmtF6 m.CPUUsage,
   fmtF6 m.MemoryUsage,
   toString m.MemoryTotal,
   toString m.MemoryFree,
   toString m.MemoryUsed,
   fmtF6 m.DiskUsage,
   toString m.DiskTotal,
   toString m.DiskFree,
   toString m.DiskUsed]

/-- `saveSystemMetrics` of `main.go`, line by line:
`os.MkdirAll("./reports", 0755)` (early return on error, logged);
`os.Create(fileName)` (truncates; early return on error, logged);
`defer file.Close()`; a header `Write` whose result is discarded; a data
`Write` whose error is checked and logged (early return, before the flush);
`writer.Flush()` commits the buffer to the file. -/
def saveSystemMetrics (o : SaveOracle) (metrics : SystemMetrics) (fileName : String)
    (fs : FS) : FS × List Event :=
  match o.mkdirErr with
  | some e =>
    (fs, [.mkdirAll "./reports" 0o755, .logMsg ("Error creating reports directory: " ++ e)])
  | none =>
    match o.createErr with
    | some e =>
      (fs, [.mkdirAll "./reports" 0o755, .createFile fileName,
            .logMsg ("Error creating metrics file: " ++ e)])
    | none =>
      let truncated := fs.update fileName ""
      let hdr := writeRow csvHeaderFields
      let dat := writeRow (metricsFields metrics)
      match o.dataErr with
      | some e =>
        (truncated,
         [.mkdirAll "./reports" 0o755, .createFile fileName, .bufWrite hdr, .bufWrite dat,
          .logMsg ("Error writing to metrics file: " ++ e), .closeFile])
      | none =>
        (truncated.update fileName (hdr ++ dat),
         [.mkdirAll "./reports" 0o755, .createFile fileName, .bufWrite hdr, .bufWrite dat,
          .flushWriter, .closeFile])

/-- Everything a whole run receives from outside: the sampler results, the
writer's filesystem results, the `godotenv.Load` result, the environment
(after a successful dotenv load; `os.Getenv` returns `""` for unset keys),
and the result of each `DialAndSend` attempt. -/
structure ProcOracle where
  sampler : SamplerOracle
  save : SaveOracle
  dotenvErr : Option GoErr
  env : String → String
  transport : Nat → Option GoErr

/-- The retry loop of `sendMetricsToEmail` (`for i := 0; i < maxRetries; i++`
with `maxRetries = 3`, `retryDelay = 5 * time.Second`), written with the
number of remaining iterations as fuel: `fuel = maxRetries - i`, so
`fuel = 0` after the match is exactly the source's `i < maxRetries-1`
being false. -/
def sendLoop (t : Nat → Option GoErr) : Nat → Nat → List Event
  | 0, _ => []
  | fuel + 1, i =>
    match t i with
    | some e =>
      .dialAndSend i :: .logMsg ("Attempt " ++ toString (i + 1) ++ ": Error sending email: " ++ e) ::
        (match fuel with
         | 0 => []
         | _ + 1 => .logMsg "Retrying in 5s..." :: .sleep 5 :: sendLoop t fuel (i + 1))
    | none => [.dialAndSend i, .logMsg "Email sent successfully"]

/-- `sendMetricsToEmail` of `main.go`: a failing `godotenv.Load()` is logged
and the function returns at once; otherwise the message (From/To/Subject
headers, CSV attachment) is built, `strconv.Atoi(os.Getenv("SMTP_PORT"))`
is parsed — failure is `log.Fatalf`, i.e. `os.Exit(1)` — then the dialer is
constructed and the 3-attempt send loop runs.  Result: event trace and the
process exit code this call forces (1 for `log.Fatalf`, else 0). -/
def sendMetricsToEmail (o : ProcOracle) (fileName : String) : List Event × Nat :=
  match o.dotenvErr with
  | some e => ([.logMsg ("Error loading .env file: " ++ e)], 0)
  | none =>
    let msg := Event.buildMessage (o.env "SMTP_FROM") (o.env "SMTP_TO") "System Metrics" fileName
    match goAtoi (o.env "SMTP_PORT") with
    | none => ([msg, .fatal "Invalid SMTP port"], 1)
    | some port =>
      (msg :: .newDialer (o.env "SMTP_HOST") port (o.env "SMTP_USER") (o.env "SMTP_PASSWORD")
         :: sendLoop o.transport 3 0, 0)

/-- `main` of `main.go`: builds the file name from `DIRECTORY_PATH` and the
write-time timestamp, samples (on error: log and return), logs the
snapshot, saves, logs, mails.  Returns the final filesystem, the event
trace, and the process exit code. -/
def mainRun (o : ProcOracle) (currentTime : String) (fs : FS) : FS × List Event × Nat :=
  let fileName := o.env "DIRECTORY_PATH" ++ "metrics_" ++ currentTime ++ ".csv"
  match getSystemMetrics o.sampler with
  | .error e => (fs, [.logMsg ("Error getting system metrics: " ++ e)], 0)
  | .ok metrics =>
    let saved := saveSystemMetrics o.save metrics fileName fs
    let mailed := sendMetricsToEmail o fileName
    (saved.1, .logMetrics metrics :: saved.2 ++ .logMsg "Sending metrics to email" :: mailed.1,
     mailed.2)

/-- The snapshot of the end-to-end scenario, with an arbitrary capture
time. -/
def c1Metrics (t : GoTime) : SystemMetrics :=
  { Timestamp := t, CPUCount := 4, CPUUsage := ⟨25, 2⟩, MemoryUsage := ⟨40, 1⟩,
    MemoryTotal := 1000, MemoryFree := 600, MemoryUsed := 400, DiskUsage := ⟨55, 1⟩,
    DiskTotal := 2000, DiskFree := 900, DiskUsed := 1100 }

/-- A concrete capture time for witnesses. -/
def tsOk : GoTime := ⟨"2024-01-01T00:00:00Z"⟩

/-- A fully successful writer oracle. -/
def allOkSave : SaveOracle :=
  { mkdirErr := none, createErr := none, headerErr := none, dataErr := none }

/-- A fully successful sampler oracle, returning the end-to-end scenario's
values. -/
def allOkSampler : SamplerOracle :=
  { cpuPercent := .ok [⟨25, 2⟩], cpuCounts := .ok 4,
    virtualMemory := .ok { UsedPercent := ⟨40, 1⟩, Total := 1000, Free := 600, Used := 400 },
    diskUsage := .ok { UsedPercent := ⟨55, 1⟩, Total := 2000, Free := 900, Used := 1100 },
    now := tsOk }

/-- The concrete snapshot used by counterexamples. -/
def cMetrics : SystemMetrics := c1Metrics tsOk

/-! ## Theorems -/

/-- A field that needs no quoting is emitted verbatim. -/
theorem quoteField_id (ts : String) (hq : fieldNeedsQuotes ts = false) :
    quoteField ts = ts := by
  simp [quoteField, hq]

/-- The data row of the end-to-end snapshot, for any unquoted timestamp
rendering. -/
theorem c1_row (ts : String) (hq : fieldNeedsQuotes ts = false) :
    writeRow (metricsFields (c1Metrics ⟨ts⟩)) =
      ts ++ ",4,12.500000,40.000000,1000,600,400,55.000000,2000,900,1100\n" := by
  simp only [writeRow, metricsFields, c1Metrics, List.map]
  rw [quoteField_id ts hq]
  simp only [joinComma]
  rw [String.append_assoc, String.append_assoc]
  congr 1

/-- C1: with directory creation, file creation and the data write all
succeeding, `saveSystemMetrics` commits exactly the fixed 11-column header
row followed by the snapshot's data row (timestamp, `%d` integers, `%f`
floats in order); instantiated at the end-to-end snapshot the data row is
`<ts>,4,12.500000,40.000000,1000,600,400,55.000000,2000,900,1100`. -/
theorem saveSystemMetrics_writes_header_and_row (o : SaveOracle) (m : SystemMetrics)
    (ts f : String) (fs : FS)
    (h1 : o.mkdirErr = none) (h2 : o.createErr = none) (h3 : o.dataErr = none)
    (hq : fieldNeedsQuotes ts = false) :
    (saveSystemMetrics o m f fs).1 f =
      some (writeRow csvHeaderFields ++ writeRow (metricsFields m)) ∧
    (saveSystemMetrics o (c1Metrics ⟨ts⟩) f fs).1 f =
      some ("Timestamp,CPUCount,CPUUsage,MemoryUsage,MemoryTotal,MemoryFree,MemoryUsed,DiskUsage,DiskTotal,DiskFree,DiskUsed\n"
        ++ (ts ++ ",4,12.500000,40.000000,1000,600,400,55.000000,2000,900,1100\n")) := by
  constructor
  · simp [saveSystemMetrics, h1, h2, h3, FS.update]
  · simp [saveSystemMetrics, h1, h2, h3, FS.update]
    rw [c1_row ts hq]
    congr 1

/-- Witness for C1 at a concrete oracle, snapshot, path and timestamp. -/
theorem saveSystemMetrics_writes_header_and_row_witness :
    fieldNeedsQuotes "2024-01-01T00:00:00Z" = false ∧
    ((saveSystemMetrics allOkSave cMetrics "reports/metrics_t.csv" emptyFS).1
        "reports/metrics_t.csv" =
      some (writeRow csvHeaderFields ++ writeRow (metricsFields cMetrics)) ∧
    (saveSystemMetrics allOkSave cMetrics "reports/metrics_t.csv" emptyFS).1
        "reports/metrics_t.csv" =
      some ("Timestamp,CPUCount,CPUUsage,MemoryUsage,MemoryTotal,MemoryFree,MemoryUsed,DiskUsage,DiskTotal,DiskFree,DiskUsed\n"
        ++ ("2024-01-01T00:00:00Z"
          ++ ",4,12.500000,40.000000,1000,600,400,55.000000,2000,900,1100\n"))) :=
  ⟨by decide,
   saveSystemMetrics_writes_header_and_row allOkSave cMetrics "2024-01-01T00:00:00Z"
     "reports/metrics_t.csv" emptyFS rfl rfl rfl (by decide)⟩

/-- C8: calling `saveSystemMetrics` twice with the same snapshot and the
same destination truncates and rewrites: the filesystem after the second
call equals the one after the first, and the file holds exactly one header
row and one data row (not two of each). -/
theorem saveSystemMetrics_truncates (o : SaveOracle) (m : SystemMetrics) (f : String)
    (fs : FS) (h1 : o.mkdirErr = none) (h2 : o.createErr = none) (h3 : o.dataErr = none) :
    (saveSystemMetrics o m f ((saveSystemMetrics o m f fs).1)).1 =
      (saveSystemMetrics o m f fs).1 ∧
    (saveSystemMetrics o m f fs).1 f =
      some (writeRow csvHeaderFields ++ writeRow (metricsFields m)) := by
  constructor
  · funext q
    by_cases hqf : q = f <;> simp [saveSystemMetrics, h1, h2, h3, FS.update, hqf]
  · simp [saveSystemMetrics, h1, h2, h3, FS.update]

/-- Witness for C8 at a concrete oracle, snapshot and path. -/
theorem saveSystemMetrics_truncates_witness :
    (saveSystemMetrics allOkSave cMetrics "metrics_t.csv"
        ((saveSystemMetrics allOkSave cMetrics "metrics_t.csv" emptyFS).1)).1 =
      (saveSystemMetrics allOkSave cMetrics "metrics_t.csv" emptyFS).1 ∧
    (saveSystemMetrics allOkSave cMetrics "metrics_t.csv" emptyFS).1 "metrics_t.csv" =
      some (writeRow csvHeaderFields ++ writeRow (metricsFields cMetrics)) :=
  saveSystemMetrics_truncates allOkSave cMetrics "metrics_t.csv" emptyFS rfl rfl rfl

/-- A writer oracle whose data-row write fails. -/
def dataErrSave : SaveOracle :=
  { mkdirErr := none, createErr := none, headerErr := none, dataErr := some "disk full" }

/-- C9 counterexample: on the data-row write-error path the file handle is
closed (the deferred `Close` runs) but the buffered CSV data is NOT
flushed — `writer.Flush()` sits after the early `return`. -/
theorem c9_flush_skipped_on_error :
    Event.closeFile ∈ (saveSystemMetrics dataErrSave cMetrics "metrics_t.csv" emptyFS).2 ∧
    Event.flushWriter ∉ (saveSystemMetrics dataErrSave cMetrics "metrics_t.csv" emptyFS).2 := by
  constructor
  · decide
  · decide

/-- C9 amended: after a successful `os.Create` the deferred `Close` releases
the file handle on every exit path, but the csv buffer is flushed exactly on
the path where the data-row write succeeds. -/
theorem saveSystemMetrics_close_always_flush_on_success (o : SaveOracle)
    (m : SystemMetrics) (f : String) (fs : FS)
    (h1 : o.mkdirErr = none) (h2 : o.createErr = none) :
    Event.closeFile ∈ (saveSystemMetrics o m f fs).2 ∧
    (Event.flushWriter ∈ (saveSystemMetrics o m f fs).2 ↔ o.dataErr = none) := by
  rcases h3 : o.dataErr with _ | e <;>
    simp [saveSystemMetrics, h1, h2, h3]

/-- Witness for the amended C9 at a concrete oracle. -/
theorem saveSystemMetrics_close_always_flush_on_success_witness :
    Event.closeFile ∈ (saveSystemMetrics allOkSave cMetrics "metrics_t.csv" emptyFS).2 ∧
    (Event.flushWriter ∈ (saveSystemMetrics allOkSave cMetrics "metrics_t.csv" emptyFS).2 ↔
      allOkSave.dataErr = none) :=
  saveSystemMetrics_close_always_flush_on_success allOkSave cMetrics "metrics_t.csv"
    emptyFS rfl rfl

/-- C7 counterexample: for the destination `data/metrics.csv` (directory
part `data`, as with a non-empty `DIRECTORY_PATH` prefix) the writer
creates the file without ever creating its containing directory — the only
directory it makes is the hardcoded `./reports`. -/
theorem c7_wrong_directory :
    Event.createFile "data/metrics.csv" ∈
      (saveSystemMetrics allOkSave cMetrics "data/metrics.csv" emptyFS).2 ∧
    Event.mkdirAll "data" 0o755 ∉
      (saveSystemMetrics allOkSave cMetrics "data/metrics.csv" emptyFS).2 ∧
    Event.mkdirAll "./reports" 0o755 ∈
      (saveSystemMetrics allOkSave cMetrics "data/metrics.csv" emptyFS).2 := by
  refine ⟨by decide, by decide, by decide⟩

/-- C7 amended: for every destination path the writer's very first action is
`os.MkdirAll("./reports", 0755)` — it recursively creates the hardcoded
`./reports` directory, not the directory containing the destination path, so
file creation in any other directory can still fail. -/
theorem saveSystemMetrics_mkdir_first (o : SaveOracle) (m : SystemMetrics)
    (f : String) (fs : FS) :
    (saveSystemMetrics o m f fs).2.head? = some (Event.mkdirAll "./reports" 0o755) := by
  rcases h1 : o.mkdirErr with _ | e <;> rcases h2 : o.createErr with _ | e2 <;>
    rcases h3 : o.dataErr with _ | e3 <;> simp [saveSystemMetrics, h1, h2, h3]

/-- C10: the header-row write's error is discarded.  When the header write
fails and the data write also fails, the run is indistinguishable from one
where the header write succeeded (first conjunct), the data write is still
attempted (`bufWrite` of the data row is in the trace), and the only error
log is the data-row one. -/
theorem saveSystemMetrics_header_error_discarded (o : SaveOracle) (m : SystemMetrics)
    (f : String) (fs : FS) (e e2 : GoErr)
    (hh : o.headerErr = some e)
    (h1 : o.mkdirErr = none) (h2 : o.createErr = none) (h3 : o.dataErr = some e2) :
    saveSystemMetrics o m f fs =
      saveSystemMetrics { o with headerErr := none } m f fs ∧
    (saveSystemMetrics o m f fs).2 =
      [.mkdirAll "./reports" 0o755, .createFile f,
       .bufWrite (writeRow csvHeaderFields), .bufWrite (writeRow (metricsFields m)),
       .logMsg ("Error writing to metrics file: " ++ e2), .closeFile] := by
  constructor
  · cases o
    rfl
  · simp [saveSystemMetrics, h1, h2, h3]

/-- Witness for C10 at a concrete oracle with a failing header write and a
failing data write. -/
theorem saveSystemMetrics_header_error_discarded_witness :
    saveSystemMetrics
        { mkdirErr := none, createErr := none, headerErr := some "werr",
          dataErr := some "disk full" } cMetrics "metrics_t.csv" emptyFS =
      saveSystemMetrics
        { mkdirErr := none, createErr := none, headerErr := none,
          dataErr := some "disk full" } cMetrics "metrics_t.csv" emptyFS ∧
    (saveSystemMetrics
        { mkdirErr := none, createErr := none, headerErr := some "werr",
          dataErr := some "disk full" } cMetrics "metrics_t.csv" emptyFS).2 =
      [.mkdirAll "./reports" 0o755, .createFile "metrics_t.csv",
       .bufWrite (writeRow csvHeaderFields), .bufWrite (writeRow (metricsFields cMetrics)),
       .logMsg ("Error writing to metrics file: " ++ "disk full"), .closeFile] :=
  saveSystemMetrics_header_error_discarded
    { mkdirErr := none, createErr := none, headerErr := some "werr",
      dataErr := some "disk full" } cMetrics "metrics_t.csv" emptyFS "werr" "disk full"
    rfl rfl rfl rfl

/-- C2: when any of the four OS sub-queries fails, `getSystemMetrics`
returns exactly the first failing query's error (no partial snapshot is
possible in the `error` case), and `main` then logs it and stops: the
filesystem is untouched (no CSV written) and the trace holds nothing but
the one log line (no mkdir/create, no message build, no dial). -/
theorem getSystemMetrics_error_aborts_run (o : ProcOracle) (ct : String) (fs : FS)
    (e : GoErr) (h : firstSamplerError o.sampler = some e) :
    getSystemMetrics o.sampler = .error e ∧
    mainRun o ct fs = (fs, [.logMsg ("Error getting system metrics: " ++ e)], 0) := by
  have hg : getSystemMetrics o.sampler = .error e := by
    rcases h1 : o.sampler.cpuPercent with e1 | v1 <;>
    rcases h2 : o.sampler.cpuCounts with e2 | v2 <;>
    rcases h3 : o.sampler.virtualMemory with e3 | v3 <;>
    rcases h4 : o.sampler.diskUsage with e4 | v4 <;>
      simp_all [firstSamplerError, getSystemMetrics, Except.bind]
  exact ⟨hg, by simp [mainRun, hg]⟩

/-- A sampler oracle whose first OS query (CPU percent) fails. -/
def c2Oracle : ProcOracle :=
  { sampler := { allOkSampler with cpuPercent := .error "cpu query failed" },
    save := allOkSave, dotenvErr := none, env := fun _ => "", transport := fun _ => none }

/-- Witness for C2 at a concrete failing sampler. -/
theorem getSystemMetrics_error_aborts_run_witness :
    firstSamplerError c2Oracle.sampler = some "cpu query failed" ∧
    (getSystemMetrics c2Oracle.sampler = .error "cpu query failed" ∧
     mainRun c2Oracle "2024-01-01_000000" emptyFS =
       (emptyFS, [.logMsg ("Error getting system metrics: " ++ "cpu query failed")], 0)) :=
  ⟨rfl, getSystemMetrics_error_aborts_run c2Oracle "2024-01-01_000000" emptyFS
    "cpu query failed" rfl⟩

/-- An oracle where everything succeeds except that `SMTP_PORT` does not
parse and the transport is down. -/
def c3Oracle : ProcOracle :=
  { sampler := allOkSampler, save := allOkSave, dotenvErr := none,
    env := fun k => if k = "SMTP_PORT" then "notanumber" else "",
    transport := fun _ => some "connection refused" }

/-- C3 counterexample: a run whose only internal failure is a configuration
failure (non-numeric `SMTP_PORT`) exits with status 1, via `log.Fatalf` —
not with status 0 as claimed. -/
theorem c3_nonzero_exit :
    (mainRun c3Oracle "2024-01-01_000000" emptyFS).2.2 = 1 := by decide

/-- C3 amended: the exit code is 0 for every combination of sampling,
persistence and transport failures, with exactly one exception: when
sampling and the dotenv load succeed and `SMTP_PORT` then fails to parse,
`log.Fatalf` exits with status 1. -/
theorem mainRun_exit_code (o : ProcOracle) (ct : String) (fs : FS) :
    (mainRun o ct fs).2.2 =
      if firstSamplerError o.sampler = none ∧ o.dotenvErr = none ∧
          goAtoi (o.env "SMTP_PORT") = none then 1 else 0 := by
  rcases h1 : o.sampler.cpuPercent with e1 | v1 <;>
  rcases h2 : o.sampler.cpuCounts with e2 | v2 <;>
  rcases h3 : o.sampler.virtualMemory with e3 | v3 <;>
  rcases h4 : o.sampler.diskUsage with e4 | v4 <;>
  rcases h5 : o.dotenvErr with _ | e5 <;>
  rcases h6 : goAtoi (o.env "SMTP_PORT") with _ | p <;>
    simp_all [mainRun, getSystemMetrics, firstSamplerError, sendMetricsToEmail, Except.bind]

/-- C4: if `SMTP_PORT` does not parse as an integer (on the path where it is
read at all, i.e. the dotenv load succeeded), `sendMetricsToEmail` stops at
`log.Fatalf` with exit status 1: the trace ends right after the message
build — no dialer is constructed, no dial or send is attempted, no sleep
happens. -/
theorem sendMetricsToEmail_invalid_port (o : ProcOracle) (f : String)
    (h1 : o.dotenvErr = none) (h2 : goAtoi (o.env "SMTP_PORT") = none) :
    sendMetricsToEmail o f =
      ([.buildMessage (o.env "SMTP_FROM") (o.env "SMTP_TO") "System Metrics" f,
        .fatal "Invalid SMTP port"], 1) := by
  simp [sendMetricsToEmail, h1, h2]

/-- An oracle with a non-numeric `SMTP_PORT`. -/
def c4Oracle : ProcOracle :=
  { sampler := allOkSampler, save := allOkSave, dotenvErr := none,
    env := fun k => if k = "SMTP_PORT" then "abc" else "", transport := fun _ => none }

/-- Witness for C4 at a concrete environment. -/
theorem sendMetricsToEmail_invalid_port_witness :
    c4Oracle.dotenvErr = none ∧ goAtoi (c4Oracle.env "SMTP_PORT") = none ∧
    sendMetricsToEmail c4Oracle "metrics_t.csv" =
      ([.buildMessage "" "" "System Metrics" "metrics_t.csv",
        .fatal "Invalid SMTP port"], 1) :=
  ⟨rfl, by decide,
   sendMetricsToEmail_invalid_port c4Oracle "metrics_t.csv" rfl (by decide)⟩

/-- C5: with a parsed port and the first two attempts failing, the mailer
performs exactly three `DialAndSend` attempts — never a fourth — sleeping
5 seconds before the second and before the third only; the third attempt
decides the ending: a success log on `none`, a third failure log (and no
further sleep, no error raised, exit 0) otherwise. -/
theorem sendMetricsToEmail_retries_three_times (o : ProcOracle) (f : String) (p : Int)
    (e1 e2 : GoErr) (r2 : Option GoErr)
    (hd : o.dotenvErr = none) (hp : goAtoi (o.env "SMTP_PORT") = some p)
    (h0 : o.transport 0 = some e1) (h1 : o.transport 1 = some e2)
    (h2 : o.transport 2 = r2) :
    sendMetricsToEmail o f =
      ([.buildMessage (o.env "SMTP_FROM") (o.env "SMTP_TO") "System Metrics" f,
        .newDialer (o.env "SMTP_HOST") p (o.env "SMTP_USER") (o.env "SMTP_PASSWORD"),
        .dialAndSend 0, .logMsg ("Attempt 1: Error sending email: " ++ e1),
        .logMsg "Retrying in 5s...", .sleep 5,
        .dialAndSend 1, .logMsg ("Attempt 2: Error sending email: " ++ e2),
        .logMsg "Retrying in 5s...", .sleep 5,
        .dialAndSend 2] ++
        (match r2 with
         | none => [.logMsg "Email sent successfully"]
         | some e3 => [.logMsg ("Attempt 3: Error sending email: " ++ e3)]), 0) := by
  rcases r2 with _ | e3
  · simp [sendMetricsToEmail, hd, hp, sendLoop, h0, h1, h2]
    exact ⟨rfl, rfl⟩
  · simp [sendMetricsToEmail, hd, hp, sendLoop, h0, h1, h2]
    exact ⟨rfl, rfl, rfl⟩

/-- An oracle whose transport fails exactly twice and then succeeds. -/
def c5Oracle : ProcOracle :=
  { sampler := allOkSampler, save := allOkSave, dotenvErr := none,
    env := fun k => if k = "SMTP_PORT" then "2525" else "",
    transport := fun i => if i < 2 then some "connection refused" else none }

/-- Witness for C5: fails twice, succeeds on the third attempt. -/
theorem sendMetricsToEmail_retries_three_times_witness :
    c5Oracle.transport 0 = some "connection refused" ∧
    c5Oracle.transport 2 = none ∧
    sendMetricsToEmail c5Oracle "metrics_t.csv" =
      ([.buildMessage "" "" "System Metrics" "metrics_t.csv",
        .newDialer "" 2525 "" "",
        .dialAndSend 0, .logMsg ("Attempt 1: Error sending email: " ++ "connection refused"),
        .logMsg "Retrying in 5s...", .sleep 5,
        .dialAndSend 1, .logMsg ("Attempt 2: Error sending email: " ++ "connection refused"),
        .logMsg "Retrying in 5s...", .sleep 5,
        .dialAndSend 2] ++ [.logMsg "Email sent successfully"], 0) :=
  ⟨rfl, rfl,
   sendMetricsToEmail_retries_three_times c5Oracle "metrics_t.csv" 2525
     "connection refused" "connection refused" none rfl (by decide) rfl rfl rfl⟩

/-- An oracle whose dotenv load fails (missing `.env` file). -/
def c6Oracle : ProcOracle :=
  { sampler := allOkSampler, save := allOkSave,
    dotenvErr := some "open .env: no such file or directory",
    env := fun _ => "", transport := fun _ => none }

/-- C6 counterexample: with the dotenv file absent, `sendMetricsToEmail`
logs and returns at once — the trace holds only the log line; the message
is never built and no send is ever attempted, contrary to the claim that
the mailer still proceeds. -/
theorem c6_returns_early_on_missing_dotenv :
    (sendMetricsToEmail c6Oracle "metrics_t.csv").1 =
      [.logMsg "Error loading .env file: open .env: no such file or directory"] ∧
    Event.dialAndSend 0 ∉ (sendMetricsToEmail c6Oracle "metrics_t.csv").1 ∧
    Event.buildMessage "" "" "System Metrics" "metrics_t.csv" ∉
      (sendMetricsToEmail c6Oracle "metrics_t.csv").1 := by
  refine ⟨by decide, by decide, by decide⟩

/-- C6 amended: a failing dotenv load is logged and makes
`sendMetricsToEmail` return immediately — no message build, no send attempt
— while remaining non-fatal to the process (exit code 0). -/
theorem sendMetricsToEmail_dotenv_missing_aborts_mailer (o : ProcOracle) (f : String)
    (e : GoErr) (h : o.dotenvErr = some e) :
    sendMetricsToEmail o f = ([.logMsg ("Error loading .env file: " ++ e)], 0) := by
  simp [sendMetricsToEmail, h]

/-- Witness for the amended C6 at a concrete oracle. -/
theorem sendMetricsToEmail_dotenv_missing_aborts_mailer_witness :
    c6Oracle.dotenvErr = some "open .env: no such file or directory" ∧
    sendMetricsToEmail c6Oracle "metrics_t.csv" =
      ([.logMsg ("Error loading .env file: " ++ "open .env: no such file or directory")], 0) :=
  ⟨rfl, sendMetricsToEmail_dotenv_missing_aborts_mailer c6Oracle "metrics_t.csv"
    "open .env: no such file or directory" rfl⟩
